import Mathlib

/-!
Shallow embedding of `src/network.c` from darsto/brother-scanner-driver:
the connection-handle manager (fixed table of 32 records, per-record
state machine Uninitialized / Disconnected / Connected, UDP and TCP
operation families).

OS interaction (socket, setsockopt, bind, connect, sendto, recvfrom,
recv, send) is modelled by oracle parameters giving each call's result;
`close` calls and `perror` diagnostics are recorded as side effects.
`assert` failure and undefined behaviour (NULL-pointer dereference on an
invalid handle, out-of-bounds table access in init) are distinct fatal
outcomes of an operation.
-/

/-- C: `#define MAX_NETWORK_CONNECTIONS 32` (src/network.c:18). -/
def MAX_NETWORK_CONNECTIONS : Nat := 32

/-- C: `#define CONNECTION_TIMEOUT_SEC 3` (src/network.c:19). -/
def CONNECTION_TIMEOUT_SEC : Nat := 3

/-- `AF_INET` address family constant (Linux: 2). -/
def AF_INET : Nat := 2

/-- `INADDR_ANY` wildcard address (0). -/
def INADDR_ANY : Nat := 0

/-- `EAGAIN` errno value (Linux: 11). -/
def EAGAIN : Nat := 11

/-- `EWOULDBLOCK` errno value (Linux: 11, same as EAGAIN). -/
def EWOULDBLOCK : Nat := 11

/-- `sizeof(struct sockaddr_in)` = 16 bytes. -/
def sizeof_sockaddr_in : Nat := 16

/-- `htonl`: 32-bit host-to-network byte swap (little-endian host). Only
applied by this module to `INADDR_ANY` = 0, whose swap is 0. -/
def htonl (x : Nat) : Nat :=
  let b0 := x % 256
  let b1 := x / 256 % 256
  let b2 := x / 65536 % 256
  let b3 := x / 16777216 % 256
  b0 * 16777216 + b1 * 65536 + b2 * 256 + b3

/-- C: `enum network_conn_state` (src/network.c:21-25). The enum name
`NETWORK_CONN_STATE_UNITIALIZED` keeps the source's spelling. -/
inductive network_conn_state
  | NETWORK_CONN_STATE_UNITIALIZED
  | NETWORK_CONN_STATE_DISCONNECTED
  | NETWORK_CONN_STATE_CONNECTED
deriving DecidableEq

/-- The fields of `struct sockaddr_in` that network.c reads or writes:
`sin_family`, `sin_addr.s_addr` (32-bit, network order), `sin_port`
(16-bit, network order). -/
structure sockaddr_in where
  sin_family : Nat
  sin_addr : Nat
  sin_port : Nat
deriving DecidableEq

/-- C: `struct network_conn` (src/network.c:27-34). -/
structure network_conn where
  fd : Int
  server : Bool
  state : network_conn_state
  sin_me : sockaddr_in
  sin_oth : sockaddr_in
  slen : Nat
deriving DecidableEq

/-- The module's globals: `static atomic_int g_conn_count` and
`static struct network_conn g_conns[MAX_NETWORK_CONNECTIONS]`
(src/network.c:36-37). -/
structure network_state where
  g_conn_count : Nat
  g_conns : Fin MAX_NETWORK_CONNECTIONS → network_conn

/-- Side effects of one call: labels passed to `perror`, number of
`hexdump` trace emissions (content is observability-only and not
modelled), and descriptors passed to `close`. -/
structure side_effects where
  perrors : List String
  hexdumps : Nat
  closed_fds : List Int
deriving DecidableEq

/-- Empty side effects. -/
def no_effects : side_effects := { perrors := [], hexdumps := 0, closed_fds := [] }

/-- Outcome of running one C function: normal return with a value and the
new global state plus side effects, `assert` failure (the process
aborts), or undefined behaviour (NULL-pointer dereference on an invalid
handle, or the out-of-bounds `g_conns[conn_id]` access when the counter
has passed the table capacity). -/
inductive cresult (α : Type)
  | ok : α → cresult α
  | abortAssert : cresult α
  | ub : cresult α
deriving DecidableEq

/-- Value-state-effects triple returned by each operation. -/
abbrev cret := cresult (Int × network_state × side_effects)

/-- Pointwise update of the connection table at one slot (a C write
through `conn = &g_conns[i]`). -/
def set_conn (g : Fin MAX_NETWORK_CONNECTIONS → network_conn)
    (i : Fin MAX_NETWORK_CONNECTIONS) (c : network_conn) :
    Fin MAX_NETWORK_CONNECTIONS → network_conn :=
  fun j => if j = i then c else g j

/-- All-zero `sockaddr_in`, the startup value of a static C object. -/
def zero_addr : sockaddr_in := { sin_family := 0, sin_addr := 0, sin_port := 0 }

/-- Startup value of one record: static storage is zero-initialized, and
state 0 is `NETWORK_CONN_STATE_UNITIALIZED`. -/
def initial_conn : network_conn :=
  { fd := 0, server := false,
    state := .NETWORK_CONN_STATE_UNITIALIZED,
    sin_me := zero_addr, sin_oth := zero_addr, slen := 0 }

/-- Startup global state: counter 0, all records Uninitialized. -/
def initial_state : network_state :=
  { g_conn_count := 0, g_conns := fun _ => initial_conn }

/-- C: `get_network_conn` (src/network.c:39-49). Returns the table slot
for `conn_id`, or `none` (NULL) when `(unsigned)conn_id >= 32` — i.e.
when `conn_id` is negative or at least 32. -/
def get_network_conn (conn_id : Int) :
    Option (Fin MAX_NETWORK_CONNECTIONS) :=
  if h : 0 ≤ conn_id ∧ conn_id < (MAX_NETWORK_CONNECTIONS : Int) then
    some ⟨conn_id.toNat, by omega⟩
  else
    none

/-- OS results consumed by `network_udp_init_conn`: the `socket` return,
the two `setsockopt` returns, and the `bind` return. -/
structure udp_init_os where
  socket_ret : Int
  sockopt_rcv_ret : Int
  sockopt_snd_ret : Int
  bind_ret : Int

/-- OS results consumed by `network_tcp_init_conn`: as for UDP plus the
`SO_REUSEADDR` `setsockopt` return. -/
structure tcp_init_os where
  socket_ret : Int
  sockopt_rcv_ret : Int
  sockopt_snd_ret : Int
  sockopt_reuse_ret : Int
  bind_ret : Int

/-- Result of one `recvfrom` call: a negative return with the errno
value, or a byte count with the sender's address. -/
inductive recvfrom_result
  | fail : Nat → recvfrom_result
  | ok : Nat → sockaddr_in → recvfrom_result

/-- Result of one TCP `recv` call: a negative return with the errno
value, or a byte count. -/
inductive recv_result
  | fail : Nat → recv_result
  | ok : Nat → recv_result

/-- C: `network_udp_init_conn` (src/network.c:51-93). Fetch-and-add the
counter, index the table (out of bounds when the counter has reached 32:
undefined behaviour), assert the slot Uninitialized, create the socket
(storing its return in `fd` before the failure check), set timeouts,
fill `sin_me`, bind when `port > 0` (closing the descriptor and
returning -1 on bind failure), and finally mark Disconnected. -/
def network_udp_init_conn (st : network_state) (os : udp_init_os)
    (port : Nat) (server : Bool) : cret :=
  let conn_id := st.g_conn_count
  let st1 : network_state := { st with g_conn_count := conn_id + 1 }
  if h : conn_id < MAX_NETWORK_CONNECTIONS then
    let i : Fin MAX_NETWORK_CONNECTIONS := ⟨conn_id, h⟩
    let conn := st1.g_conns i
    if conn.state = .NETWORK_CONN_STATE_UNITIALIZED then
      let conn := { conn with fd := os.socket_ret }
      if conn.fd = -1 then
        .ok (-1, { st1 with g_conns := set_conn st1.g_conns i conn },
             { perrors := ["socket"], hexdumps := 0, closed_fds := [] })
      else
        let conn := { conn with server := server }
        let ps := (if os.sockopt_rcv_ret ≠ 0 then ["setsockopt recv"] else []) ++
                  (if os.sockopt_snd_ret ≠ 0 then ["setsockopt send"] else [])
        let conn := { conn with
          sin_me := { sin_family := AF_INET, sin_addr := htonl INADDR_ANY,
                      sin_port := port } }
        if port > 0 ∧ os.bind_ret = -1 then
          .ok (-1, { st1 with g_conns := set_conn st1.g_conns i conn },
               { perrors := ps ++ ["bind"], hexdumps := 0,
                 closed_fds := [conn.fd] })
        else
          let conn := { conn with state := .NETWORK_CONN_STATE_DISCONNECTED }
          .ok ((conn_id : Int),
               { st1 with g_conns := set_conn st1.g_conns i conn },
               { perrors := ps, hexdumps := 0, closed_fds := [] })
    else .abortAssert
  else .ub

/-- C: `network_udp_connect` (src/network.c:95-111). Requires
Disconnected; records the peer endpoint (family forced to AF_INET),
sets `slen`, transitions to Connected; purely local, always returns 0. -/
def network_udp_connect (st : network_state) (conn_id : Int)
    (addr : Nat) (port : Nat) : cret :=
  match get_network_conn conn_id with
  | none => .ub
  | some i =>
    let conn := st.g_conns i
    if conn.state = .NETWORK_CONN_STATE_DISCONNECTED then
      let conn := { conn with
        sin_oth := { sin_family := AF_INET, sin_addr := addr, sin_port := port },
        slen := sizeof_sockaddr_in,
        state := .NETWORK_CONN_STATE_CONNECTED }
      .ok (0, { st with g_conns := set_conn st.g_conns i conn }, no_effects)
    else .abortAssert

/-- C: `network_udp_send` (src/network.c:113-132). Requires Connected;
`sendto` result is the oracle `sendto_ret`; a negative result is
perror-logged as "sendto"; the hexdump trace always fires; the record is
not modified and the `sendto` return is passed through. -/
def network_udp_send (st : network_state) (conn_id : Int)
    (sendto_ret : Int) (len : Nat) : cret :=
  match get_network_conn conn_id with
  | none => .ub
  | some i =>
    if (st.g_conns i).state = .NETWORK_CONN_STATE_CONNECTED then
      .ok (sendto_ret, st,
           { perrors := if sendto_ret < 0 then ["sendto"] else [],
             hexdumps := 1, closed_fds := [] })
    else .abortAssert

/-- C: `network_udp_receive` (src/network.c:134-166). Asserts
`(server && state != UNITIALIZED) || (!server && state == CONNECTED)`.
On `recvfrom` failure: perror "recvfrom" unless errno is EAGAIN or
EWOULDBLOCK, return -1, record untouched. On success: hexdump, and if
this is a server still Disconnected, call `network_udp_connect` with the
sender's address and port; return the byte count. -/
def network_udp_receive (st : network_state) (conn_id : Int)
    (os : recvfrom_result) (len : Nat) : cret :=
  match get_network_conn conn_id with
  | none => .ub
  | some i =>
    let conn := st.g_conns i
    if (conn.server = true ∧ conn.state ≠ .NETWORK_CONN_STATE_UNITIALIZED) ∨
       (conn.server = false ∧ conn.state = .NETWORK_CONN_STATE_CONNECTED) then
      match os with
      | .fail rc =>
        .ok (-1, st,
             { perrors := if rc ≠ EAGAIN ∧ rc ≠ EWOULDBLOCK then ["recvfrom"] else [],
               hexdumps := 0, closed_fds := [] })
      | .ok n sender =>
        if conn.server = true ∧ conn.state = .NETWORK_CONN_STATE_DISCONNECTED then
          match network_udp_connect st conn_id sender.sin_addr sender.sin_port with
          | .ok (_, st2, e2) =>
            .ok ((n : Int), st2,
                 { perrors := e2.perrors, hexdumps := 1 + e2.hexdumps,
                   closed_fds := e2.closed_fds })
          | .abortAssert => .abortAssert
          | .ub => .ub
        else
          .ok ((n : Int), st,
               { perrors := [], hexdumps := 1, closed_fds := [] })
    else .abortAssert

/-- C: `network_udp_disconnect` (src/network.c:168-180). Requires
Connected; the body is a dummy (no descriptor action, peer fields left
in place); transitions to Disconnected and returns 0. -/
def network_udp_disconnect (st : network_state) (conn_id : Int) : cret :=
  match get_network_conn conn_id with
  | none => .ub
  | some i =>
    let conn := st.g_conns i
    if conn.state = .NETWORK_CONN_STATE_CONNECTED then
      let conn := { conn with state := .NETWORK_CONN_STATE_DISCONNECTED }
      .ok (0, { st with g_conns := set_conn st.g_conns i conn }, no_effects)
    else .abortAssert

/-- C: `network_udp_free` (src/network.c:182-193). Requires
Disconnected; closes the descriptor and marks the slot Uninitialized. -/
def network_udp_free (st : network_state) (conn_id : Int) : cret :=
  match get_network_conn conn_id with
  | none => .ub
  | some i =>
    let conn := st.g_conns i
    if conn.state = .NETWORK_CONN_STATE_DISCONNECTED then
      let fd := conn.fd
      let conn := { conn with state := .NETWORK_CONN_STATE_UNITIALIZED }
      .ok (0, { st with g_conns := set_conn st.g_conns i conn },
           { perrors := [], hexdumps := 0, closed_fds := [fd] })
    else .abortAssert

/-- C: `network_tcp_init_conn` (src/network.c:196-242). As the UDP init
but a stream socket, `conn->server = false` regardless of the `server`
argument ("server not supported yet"), an extra `SO_REUSEADDR`
setsockopt, and a bind-failure test of `!= 0`. -/
def network_tcp_init_conn (st : network_state) (os : tcp_init_os)
    (port : Nat) (server : Bool) : cret :=
  let conn_id := st.g_conn_count
  let st1 : network_state := { st with g_conn_count := conn_id + 1 }
  if h : conn_id < MAX_NETWORK_CONNECTIONS then
    let i : Fin MAX_NETWORK_CONNECTIONS := ⟨conn_id, h⟩
    let conn := st1.g_conns i
    if conn.state = .NETWORK_CONN_STATE_UNITIALIZED then
      let conn := { conn with fd := os.socket_ret }
      if conn.fd = -1 then
        .ok (-1, { st1 with g_conns := set_conn st1.g_conns i conn },
             { perrors := ["socket"], hexdumps := 0, closed_fds := [] })
      else
        let conn := { conn with server := false }
        let ps := (if os.sockopt_rcv_ret ≠ 0 then ["setsockopt recv"] else []) ++
                  (if os.sockopt_snd_ret ≠ 0 then ["setsockopt send"] else []) ++
                  (if os.sockopt_reuse_ret ≠ 0 then ["setsockopt"] else [])
        let conn := { conn with
          sin_me := { sin_family := AF_INET, sin_addr := htonl INADDR_ANY,
                      sin_port := port } }
        if port > 0 ∧ os.bind_ret ≠ 0 then
          .ok (-1, { st1 with g_conns := set_conn st1.g_conns i conn },
               { perrors := ps ++ ["bind"], hexdumps := 0,
                 closed_fds := [conn.fd] })
        else
          let conn := { conn with state := .NETWORK_CONN_STATE_DISCONNECTED }
          .ok ((conn_id : Int),
               { st1 with g_conns := set_conn st1.g_conns i conn },
               { perrors := ps, hexdumps := 0, closed_fds := [] })
    else .abortAssert
  else .ub

/-- C: `network_tcp_connect` (src/network.c:244-265). Requires
Disconnected; writes the peer endpoint and `slen` into the record
*before* the OS `connect` call, so a failed connect (oracle
`connect_ret != 0`) leaves them written, logs "connect" and returns -1
with the record still Disconnected; on success transitions to
Connected. -/
def network_tcp_connect (st : network_state) (conn_id : Int)
    (addr : Nat) (port : Nat) (connect_ret : Int) : cret :=
  match get_network_conn conn_id with
  | none => .ub
  | some i =>
    let conn := st.g_conns i
    if conn.state = .NETWORK_CONN_STATE_DISCONNECTED then
      let conn := { conn with
        sin_oth := { sin_family := AF_INET, sin_addr := addr, sin_port := port },
        slen := sizeof_sockaddr_in }
      let st2 : network_state := { st with g_conns := set_conn st.g_conns i conn }
      if connect_ret ≠ 0 then
        .ok (-1, st2,
             { perrors := ["connect"], hexdumps := 0, closed_fds := [] })
      else
        let conn := { conn with state := .NETWORK_CONN_STATE_CONNECTED }
        .ok (0, { st2 with g_conns := set_conn st2.g_conns i conn }, no_effects)
    else .abortAssert

/-- C: `network_tcp_send` (src/network.c:267-286). Requires Connected;
the `send` result is the oracle; a negative result is perror-logged
under the label "sendto" (as in the source); hexdump always fires; the
record is unchanged. -/
def network_tcp_send (st : network_state) (conn_id : Int)
    (send_ret : Int) (len : Nat) : cret :=
  match get_network_conn conn_id with
  | none => .ub
  | some i =>
    if (st.g_conns i).state = .NETWORK_CONN_STATE_CONNECTED then
      .ok (send_ret, st,
           { perrors := if send_ret < 0 then ["sendto"] else [],
             hexdumps := 1, closed_fds := [] })
    else .abortAssert

/-- C: `network_tcp_receive` (src/network.c:288-312). Requires
Connected. On `recv` failure: perror "recvfrom" (the source's label)
unless errno is EAGAIN or EWOULDBLOCK, return -1, record untouched. On
success: hexdump and return the byte count; no record change. -/
def network_tcp_receive (st : network_state) (conn_id : Int)
    (os : recv_result) (len : Nat) : cret :=
  match get_network_conn conn_id with
  | none => .ub
  | some i =>
    if (st.g_conns i).state = .NETWORK_CONN_STATE_CONNECTED then
      match os with
      | .fail rc =>
        .ok (-1, st,
             { perrors := if rc ≠ EAGAIN ∧ rc ≠ EWOULDBLOCK then ["recvfrom"] else [],
               hexdumps := 0, closed_fds := [] })
      | .ok n =>
        .ok ((n : Int), st,
             { perrors := [], hexdumps := 1, closed_fds := [] })
    else .abortAssert

/-- C: `network_tcp_disconnect` (src/network.c:314-325). Requires
Connected; closes the descriptor and transitions to Disconnected. -/
def network_tcp_disconnect (st : network_state) (conn_id : Int) : cret :=
  match get_network_conn conn_id with
  | none => .ub
  | some i =>
    let conn := st.g_conns i
    if conn.state = .NETWORK_CONN_STATE_CONNECTED then
      let fd := conn.fd
      let conn := { conn with state := .NETWORK_CONN_STATE_DISCONNECTED }
      .ok (0, { st with g_conns := set_conn st.g_conns i conn },
           { perrors := [], hexdumps := 0, closed_fds := [fd] })
    else .abortAssert

/-- C: `network_tcp_free` (src/network.c:327-337). Requires
Disconnected; no `close` (the stream descriptor was closed by
disconnect); marks the slot Uninitialized. -/
def network_tcp_free (st : network_state) (conn_id : Int) : cret :=
  match get_network_conn conn_id with
  | none => .ub
  | some i =>
    let conn := st.g_conns i
    if conn.state = .NETWORK_CONN_STATE_DISCONNECTED then
      let conn := { conn with state := .NETWORK_CONN_STATE_UNITIALIZED }
      .ok (0, { st with g_conns := set_conn st.g_conns i conn }, no_effects)
    else .abortAssert

/-- Return value of an `ok` outcome, `none` when the call did not return
normally. -/
def ret_of : cret → Option Int
  | .ok (r, _, _) => some r
  | _ => none

/-- State after an `ok` outcome; falls back to `initial_state` when the
call did not return normally (callers pair it with a `ret_of` check). -/
def st_of : cret → network_state
  | .ok (_, s, _) => s
  | _ => initial_state

/-! ## Helper lemmas -/

/-- `get_network_conn` on a natural-number handle below capacity finds
the slot. -/
theorem get_network_conn_nat (k : Nat) (h : k < MAX_NETWORK_CONNECTIONS) :
    get_network_conn (k : Int) = some ⟨k, h⟩ := by
  unfold get_network_conn
  rw [dif_pos (by constructor <;> omega)]
  simp

/-- Reading the slot just written. -/
theorem set_conn_self (g : Fin MAX_NETWORK_CONNECTIONS → network_conn)
    (i : Fin MAX_NETWORK_CONNECTIONS) (c : network_conn) :
    set_conn g i c i = c := by
  simp [set_conn]

/-- Reading another slot after a write. -/
theorem set_conn_other (g : Fin MAX_NETWORK_CONNECTIONS → network_conn)
    (i j : Fin MAX_NETWORK_CONNECTIONS) (c : network_conn) (hji : j ≠ i) :
    set_conn g i c j = g j := by
  simp [set_conn, hji]

/-- The state obtained from `st` by overwriting only the `state` field of
slot `i` (what both disconnect and free do to the table). -/
def with_state (st : network_state) (i : Fin MAX_NETWORK_CONNECTIONS)
    (s : network_conn_state) : network_state :=
  { st with g_conns := set_conn st.g_conns i ({ st.g_conns i with state := s }) }

/-- Slot 0 of the table. -/
def fin0 : Fin MAX_NETWORK_CONNECTIONS := ⟨0, by decide⟩

/-- A demo record in Connected state (client role). -/
def demo_conn : network_conn :=
  { fd := 5, server := false, state := .NETWORK_CONN_STATE_CONNECTED,
    sin_me := zero_addr,
    sin_oth := { sin_family := AF_INET, sin_addr := 77, sin_port := 88 },
    slen := sizeof_sockaddr_in }

/-- A demo state whose slot 0 is Connected. -/
def demo_state : network_state :=
  { g_conn_count := 1, g_conns := set_conn initial_state.g_conns fin0 demo_conn }

/-- A demo record for a UDP server still Disconnected. -/
def demo_server_conn : network_conn :=
  { fd := 4, server := true, state := .NETWORK_CONN_STATE_DISCONNECTED,
    sin_me := { sin_family := AF_INET, sin_addr := 0, sin_port := 9100 },
    sin_oth := zero_addr, slen := 0 }

/-- A demo state whose slot 0 is a Disconnected UDP server. -/
def demo_server_state : network_state :=
  { g_conn_count := 1, g_conns := set_conn initial_state.g_conns fin0 demo_server_conn }

/-- A demo state whose counter has exhausted the table capacity. -/
def demo_full_state : network_state :=
  { g_conn_count := 32, g_conns := fun _ => demo_conn }

/-! ## Claim theorems -/

/-- Claim C7: `disconnect` requires state Connected and transitions the
record to Disconnected, returning success (0); the datagram variant
performs no descriptor action (`closed_fds = []`), while the stream
variant additionally closes the underlying descriptor. A record not in
Connected state makes either disconnect abort on its assert. -/
theorem disconnect_requires_connected_and_transitions
    (st : network_state) (cid : Int) (i : Fin MAX_NETWORK_CONNECTIONS)
    (hv : get_network_conn cid = some i) :
    ((st.g_conns i).state = .NETWORK_CONN_STATE_CONNECTED →
      network_udp_disconnect st cid =
        .ok (0, with_state st i .NETWORK_CONN_STATE_DISCONNECTED, no_effects) ∧
      network_tcp_disconnect st cid =
        .ok (0, with_state st i .NETWORK_CONN_STATE_DISCONNECTED,
          { perrors := [], hexdumps := 0, closed_fds := [(st.g_conns i).fd] })) ∧
    ((st.g_conns i).state ≠ .NETWORK_CONN_STATE_CONNECTED →
      network_udp_disconnect st cid = .abortAssert ∧
      network_tcp_disconnect st cid = .abortAssert) := by
  constructor
  · intro hc
    constructor <;>
      simp [network_udp_disconnect, network_tcp_disconnect, with_state, hv, hc]
  · intro hc
    constructor <;>
      simp [network_udp_disconnect, network_tcp_disconnect, with_state, hv, hc]

/-- Witness for C7 at a concrete Connected record in slot 0. -/
theorem disconnect_requires_connected_and_transitions_witness :
    network_udp_disconnect demo_state 0 =
      .ok (0, with_state demo_state fin0 .NETWORK_CONN_STATE_DISCONNECTED, no_effects) ∧
    network_tcp_disconnect demo_state 0 =
      .ok (0, with_state demo_state fin0 .NETWORK_CONN_STATE_DISCONNECTED,
        { perrors := [], hexdumps := 0, closed_fds := [(demo_state.g_conns fin0).fd] }) :=
  (disconnect_requires_connected_and_transitions demo_state 0 fin0
    (by decide) ).1 (by decide)

/-- Claim C8: `network_tcp_init_conn` behaves identically with the
server flag true and false — the whole result (return value, global
state, side effects) is the same; the flag is never consulted and the
record's `server` field is forced to false. -/
theorem tcp_init_ignores_server_flag
    (st : network_state) (os : tcp_init_os) (port : Nat) (s1 s2 : Bool) :
    network_tcp_init_conn st os port s1 = network_tcp_init_conn st os port s2 := rfl

/-- Claim C2 (code evaluation): once the counter has reached the table
capacity of 32, a further init call of either transport indexes
`g_conns[conn_id]` out of bounds — undefined behaviour, neither a clean
rejection nor any guarantee for the existing records. -/
theorem init_beyond_capacity_out_of_bounds
    (st : network_state) (osU : udp_init_os) (osT : tcp_init_os)
    (port : Nat) (server : Bool)
    (h : MAX_NETWORK_CONNECTIONS ≤ st.g_conn_count) :
    network_udp_init_conn st osU port server = .ub ∧
    network_tcp_init_conn st osT port server = .ub := by
  unfold network_udp_init_conn network_tcp_init_conn
  rw [dif_neg (by omega), dif_neg (by omega)]
  exact ⟨rfl, rfl⟩

/-- Witness for C2's evaluation: the 33rd init (counter 32) is undefined
behaviour for both transports. -/
theorem init_beyond_capacity_out_of_bounds_witness :
    network_udp_init_conn demo_full_state ⟨3, 0, 0, 0⟩ 9100 true = .ub ∧
    network_tcp_init_conn demo_full_state ⟨3, 0, 0, 0, 0⟩ 9100 true = .ub :=
  init_beyond_capacity_out_of_bounds demo_full_state ⟨3, 0, 0, 0⟩ ⟨3, 0, 0, 0, 0⟩
    9100 true (by decide)

/-- Claim C6: a receive whose underlying read fails returns -1 with the
global state unchanged; the errno class EAGAIN/EWOULDBLOCK is silent,
any other errno is perror-logged ("recvfrom"); no descriptor is closed.
Stated for both transports under each one's precondition. -/
theorem receive_failure_classes
    (st : network_state) (cid : Int) (i : Fin MAX_NETWORK_CONNECTIONS)
    (rc len : Nat)
    (hv : get_network_conn cid = some i) :
    (((st.g_conns i).server = true ∧
        (st.g_conns i).state ≠ .NETWORK_CONN_STATE_UNITIALIZED) ∨
     ((st.g_conns i).server = false ∧
        (st.g_conns i).state = .NETWORK_CONN_STATE_CONNECTED) →
      network_udp_receive st cid (.fail rc) len =
        .ok (-1, st,
          { perrors := if rc ≠ EAGAIN ∧ rc ≠ EWOULDBLOCK then ["recvfrom"] else [],
            hexdumps := 0, closed_fds := [] })) ∧
    ((st.g_conns i).state = .NETWORK_CONN_STATE_CONNECTED →
      network_tcp_receive st cid (.fail rc) len =
        .ok (-1, st,
          { perrors := if rc ≠ EAGAIN ∧ rc ≠ EWOULDBLOCK then ["recvfrom"] else [],
            hexdumps := 0, closed_fds := [] })) := by
  constructor
  · intro hpre
    simp only [network_udp_receive, hv]
    rw [if_pos hpre]
  · intro hc
    simp only [network_tcp_receive, hv]
    rw [if_pos hc]

/-- Witness for C6: slot 0 of `demo_server_state` is a Disconnected UDP
server and slot 0 of `demo_state` is Connected; a timed-out read
(errno EAGAIN) is silent and an ECONNRESET-class read (errno 104) logs. -/
theorem receive_failure_classes_witness :
    network_udp_receive demo_server_state 0 (.fail EAGAIN) 16 =
      .ok (-1, demo_server_state,
        { perrors := if EAGAIN ≠ EAGAIN ∧ EAGAIN ≠ EWOULDBLOCK then ["recvfrom"] else [],
          hexdumps := 0, closed_fds := [] }) ∧
    network_tcp_receive demo_state 0 (.fail 104) 16 =
      .ok (-1, demo_state,
        { perrors := if 104 ≠ EAGAIN ∧ 104 ≠ EWOULDBLOCK then ["recvfrom"] else [],
          hexdumps := 0, closed_fds := [] }) :=
  ⟨(receive_failure_classes demo_server_state 0 fin0 EAGAIN 16 (by decide)).1
      (by decide),
   (receive_failure_classes demo_state 0 fin0 104 16 (by decide)).2
      (by decide)⟩

/-- Claim C1: a successful UDP receive on a datagram server still in
Disconnected state yields the exact state produced by
`network_udp_connect` with the sender's address and port — the peer
endpoint becomes the sender and the state becomes Connected; a
successful receive on a record already Connected leaves the global
state (hence peer endpoint and state) unchanged. -/
theorem udp_receive_lazy_peer_binding
    (st : network_state) (cid : Int) (i : Fin MAX_NETWORK_CONNECTIONS)
    (n len : Nat) (sender : sockaddr_in)
    (hv : get_network_conn cid = some i) :
    ((st.g_conns i).server = true →
     (st.g_conns i).state = .NETWORK_CONN_STATE_DISCONNECTED →
      ∃ st2,
        network_udp_connect st cid sender.sin_addr sender.sin_port =
          .ok (0, st2, no_effects) ∧
        network_udp_receive st cid (.ok n sender) len =
          .ok ((n : Int), st2,
            { perrors := [], hexdumps := 1, closed_fds := [] }) ∧
        (st2.g_conns i).state = .NETWORK_CONN_STATE_CONNECTED ∧
        (st2.g_conns i).sin_oth.sin_addr = sender.sin_addr ∧
        (st2.g_conns i).sin_oth.sin_port = sender.sin_port) ∧
    ((st.g_conns i).state = .NETWORK_CONN_STATE_CONNECTED →
      network_udp_receive st cid (.ok n sender) len =
        .ok ((n : Int), st,
          { perrors := [], hexdumps := 1, closed_fds := [] })) := by
  constructor
  · intro hs hd
    refine ⟨{ st with g_conns := set_conn st.g_conns i ({ st.g_conns i with
                  sin_oth := { sin_family := AF_INET, sin_addr := sender.sin_addr,
                               sin_port := sender.sin_port },
                  slen := sizeof_sockaddr_in,
                  state := .NETWORK_CONN_STATE_CONNECTED }) }, ?_, ?_, ?_, ?_, ?_⟩
    · simp only [network_udp_connect, hv]
      rw [if_pos hd]
    · simp only [network_udp_receive, network_udp_connect, hv]
      rw [if_pos (Or.inl ⟨hs, by rw [hd]; decide⟩)]
      rw [if_pos ⟨hs, hd⟩, if_pos hd]
      simp [no_effects]
    · simp [set_conn]
    · simp [set_conn]
    · simp [set_conn]
  · intro hc
    have hpre : ((st.g_conns i).server = true ∧
        (st.g_conns i).state ≠ .NETWORK_CONN_STATE_UNITIALIZED) ∨
        ((st.g_conns i).server = false ∧
        (st.g_conns i).state = .NETWORK_CONN_STATE_CONNECTED) := by
      rcases Bool.eq_false_or_eq_true (st.g_conns i).server with ht | hf
      · exact Or.inl ⟨ht, by rw [hc]; decide⟩
      · exact Or.inr ⟨hf, hc⟩
    simp only [network_udp_receive, hv]
    rw [if_pos hpre]
    rw [if_neg (by rw [hc]; rintro ⟨-, h⟩; cases h)]

/-- Witness for C1: a first datagram from sender 0x0A000001:40000 on the
Disconnected server in slot 0 of `demo_server_state`, and a receive on
the Connected record of `demo_state`. -/
theorem udp_receive_lazy_peer_binding_witness :
    (∃ st2,
      network_udp_connect demo_server_state 0 (sockaddr_in.mk AF_INET 0x0A000001 40000).sin_addr
          (sockaddr_in.mk AF_INET 0x0A000001 40000).sin_port =
        .ok (0, st2, no_effects) ∧
      network_udp_receive demo_server_state 0
          (.ok 6 (sockaddr_in.mk AF_INET 0x0A000001 40000)) 16 =
        .ok ((6 : Int), st2,
          { perrors := [], hexdumps := 1, closed_fds := [] }) ∧
      (st2.g_conns fin0).state = .NETWORK_CONN_STATE_CONNECTED ∧
      (st2.g_conns fin0).sin_oth.sin_addr =
        (sockaddr_in.mk AF_INET 0x0A000001 40000).sin_addr ∧
      (st2.g_conns fin0).sin_oth.sin_port =
        (sockaddr_in.mk AF_INET 0x0A000001 40000).sin_port) ∧
    network_udp_receive demo_state 0
        (.ok 6 (sockaddr_in.mk AF_INET 0x0A000001 40000)) 16 =
      .ok ((6 : Int), demo_state,
        { perrors := [], hexdumps := 1, closed_fds := [] }) :=
  ⟨(udp_receive_lazy_peer_binding demo_server_state 0 fin0 6 16
      (sockaddr_in.mk AF_INET 0x0A000001 40000) (by decide)).1 (by decide) (by decide),
   (udp_receive_lazy_peer_binding demo_state 0 fin0 6 16
      (sockaddr_in.mk AF_INET 0x0A000001 40000) (by decide)).2 (by decide)⟩

/-- Claim C5: an init (either transport) with `port > 0` whose bind
fails closes the descriptor it created, returns -1, leaves its own
record's state Uninitialized, consumes the handle number, and leaves
every other slot — in particular that of any earlier successful init —
untouched. -/
theorem init_bind_failure_spec
    (st : network_state) (osU : udp_init_os) (osT : tcp_init_os)
    (port : Nat) (server : Bool)
    (h : st.g_conn_count < MAX_NETWORK_CONNECTIONS)
    (hu : (st.g_conns ⟨st.g_conn_count, h⟩).state =
      .NETWORK_CONN_STATE_UNITIALIZED)
    (hp : 0 < port) :
    (osU.socket_ret ≠ -1 → osU.bind_ret = -1 →
      ∃ st2 eff, network_udp_init_conn st osU port server = .ok (-1, st2, eff) ∧
        eff.closed_fds = [osU.socket_ret] ∧
        st2.g_conn_count = st.g_conn_count + 1 ∧
        (st2.g_conns ⟨st.g_conn_count, h⟩).state =
          .NETWORK_CONN_STATE_UNITIALIZED ∧
        ∀ j, j ≠ (⟨st.g_conn_count, h⟩ : Fin MAX_NETWORK_CONNECTIONS) →
          st2.g_conns j = st.g_conns j) ∧
    (osT.socket_ret ≠ -1 → osT.bind_ret ≠ 0 →
      ∃ st2 eff, network_tcp_init_conn st osT port server = .ok (-1, st2, eff) ∧
        eff.closed_fds = [osT.socket_ret] ∧
        st2.g_conn_count = st.g_conn_count + 1 ∧
        (st2.g_conns ⟨st.g_conn_count, h⟩).state =
          .NETWORK_CONN_STATE_UNITIALIZED ∧
        ∀ j, j ≠ (⟨st.g_conn_count, h⟩ : Fin MAX_NETWORK_CONNECTIONS) →
          st2.g_conns j = st.g_conns j) := by
  constructor
  · intro hs hb
    simp only [network_udp_init_conn]
    rw [dif_pos h, if_pos hu, if_neg hs, if_pos ⟨hp, hb⟩]
    refine ⟨_, _, rfl, rfl, rfl, ?_, ?_⟩
    · simpa [set_conn] using hu
    · intro j hj
      exact set_conn_other _ _ _ _ hj
  · intro hs hb
    simp only [network_tcp_init_conn]
    rw [dif_pos h, if_pos hu, if_neg hs, if_pos ⟨hp, hb⟩]
    refine ⟨_, _, rfl, rfl, rfl, ?_, ?_⟩
    · simpa [set_conn] using hu
    · intro j hj
      exact set_conn_other _ _ _ _ hj

/-- Witness for C5 at the startup state: socket fd 3 created, bind on
port 9100 fails, for both transports. -/
theorem init_bind_failure_spec_witness :
    (∃ st2 eff,
      network_udp_init_conn initial_state ⟨3, 0, 0, -1⟩ 9100 true =
        .ok (-1, st2, eff) ∧
      eff.closed_fds = [(3 : Int)] ∧
      st2.g_conn_count = initial_state.g_conn_count + 1 ∧
      (st2.g_conns ⟨initial_state.g_conn_count, by decide⟩).state =
        .NETWORK_CONN_STATE_UNITIALIZED ∧
      ∀ j, j ≠ (⟨initial_state.g_conn_count, by decide⟩ :
          Fin MAX_NETWORK_CONNECTIONS) →
        st2.g_conns j = initial_state.g_conns j) ∧
    (∃ st2 eff,
      network_tcp_init_conn initial_state ⟨3, 0, 0, 0, 98⟩ 9100 true =
        .ok (-1, st2, eff) ∧
      eff.closed_fds = [(3 : Int)] ∧
      st2.g_conn_count = initial_state.g_conn_count + 1 ∧
      (st2.g_conns ⟨initial_state.g_conn_count, by decide⟩).state =
        .NETWORK_CONN_STATE_UNITIALIZED ∧
      ∀ j, j ≠ (⟨initial_state.g_conn_count, by decide⟩ :
          Fin MAX_NETWORK_CONNECTIONS) →
        st2.g_conns j = initial_state.g_conns j) :=
  ⟨(init_bind_failure_spec initial_state ⟨3, 0, 0, -1⟩ ⟨3, 0, 0, 0, 98⟩ 9100 true
      (by decide) (by decide) (by decide)).1 (by decide) (by decide),
   (init_bind_failure_spec initial_state ⟨3, 0, 0, -1⟩ ⟨3, 0, 0, 0, 98⟩ 9100 true
      (by decide) (by decide) (by decide)).2 (by decide) (by decide)⟩

/-- Claim C10: every init call, of either transport, increments the
global handle counter first: whatever the oracle says about socket
creation and bind, the call returns normally with the counter advanced
by one; a failed call (return -1) leaves its record's state
Uninitialized, and a successful call returns the old counter value as
the handle with the record Disconnected. -/
theorem init_always_consumes_handle
    (st : network_state) (osU : udp_init_os) (osT : tcp_init_os)
    (port : Nat) (server : Bool)
    (h : st.g_conn_count < MAX_NETWORK_CONNECTIONS)
    (hu : (st.g_conns ⟨st.g_conn_count, h⟩).state =
      .NETWORK_CONN_STATE_UNITIALIZED) :
    (∃ r st2 eff, network_udp_init_conn st osU port server = .ok (r, st2, eff) ∧
      st2.g_conn_count = st.g_conn_count + 1 ∧
      (r = -1 → (st2.g_conns ⟨st.g_conn_count, h⟩).state =
        .NETWORK_CONN_STATE_UNITIALIZED) ∧
      (r ≠ -1 → r = (st.g_conn_count : Int) ∧
        (st2.g_conns ⟨st.g_conn_count, h⟩).state =
          .NETWORK_CONN_STATE_DISCONNECTED)) ∧
    (∃ r st2 eff, network_tcp_init_conn st osT port server = .ok (r, st2, eff) ∧
      st2.g_conn_count = st.g_conn_count + 1 ∧
      (r = -1 → (st2.g_conns ⟨st.g_conn_count, h⟩).state =
        .NETWORK_CONN_STATE_UNITIALIZED) ∧
      (r ≠ -1 → r = (st.g_conn_count : Int) ∧
        (st2.g_conns ⟨st.g_conn_count, h⟩).state =
          .NETWORK_CONN_STATE_DISCONNECTED)) := by
  constructor
  · simp only [network_udp_init_conn]
    rw [dif_pos h, if_pos hu]
    by_cases hs : osU.socket_ret = -1
    · rw [if_pos hs]
      refine ⟨-1, _, _, rfl, rfl, ?_, ?_⟩
      · intro _
        simpa [set_conn] using hu
      · intro hr
        exact absurd rfl hr
    · rw [if_neg hs]
      by_cases hb : port > 0 ∧ osU.bind_ret = -1
      · rw [if_pos hb]
        refine ⟨-1, _, _, rfl, rfl, ?_, ?_⟩
        · intro _
          simpa [set_conn] using hu
        · intro hr
          exact absurd rfl hr
      · rw [if_neg hb]
        refine ⟨_, _, _, rfl, rfl, ?_, ?_⟩
        · intro hr
          exact absurd hr (by omega)
        · intro _
          refine ⟨rfl, ?_⟩
          simp [set_conn]
  · simp only [network_tcp_init_conn]
    rw [dif_pos h, if_pos hu]
    by_cases hs : osT.socket_ret = -1
    · rw [if_pos hs]
      refine ⟨-1, _, _, rfl, rfl, ?_, ?_⟩
      · intro _
        simpa [set_conn] using hu
      · intro hr
        exact absurd rfl hr
    · rw [if_neg hs]
      by_cases hb : port > 0 ∧ osT.bind_ret ≠ 0
      · rw [if_pos hb]
        refine ⟨-1, _, _, rfl, rfl, ?_, ?_⟩
        · intro _
          simpa [set_conn] using hu
        · intro hr
          exact absurd rfl hr
      · rw [if_neg hb]
        refine ⟨_, _, _, rfl, rfl, ?_, ?_⟩
        · intro hr
          exact absurd hr (by omega)
        · intro _
          refine ⟨rfl, ?_⟩
          simp [set_conn]

/-- Witness for C10 at the startup state, with a failing `socket` call
for UDP (oracle return -1) and a fully successful TCP init. -/
theorem init_always_consumes_handle_witness :
    (∃ r st2 eff,
      network_udp_init_conn initial_state ⟨-1, 0, 0, 0⟩ 0 false =
        .ok (r, st2, eff) ∧
      st2.g_conn_count = initial_state.g_conn_count + 1 ∧
      (r = -1 → (st2.g_conns ⟨initial_state.g_conn_count, by decide⟩).state =
        .NETWORK_CONN_STATE_UNITIALIZED) ∧
      (r ≠ -1 → r = (initial_state.g_conn_count : Int) ∧
        (st2.g_conns ⟨initial_state.g_conn_count, by decide⟩).state =
          .NETWORK_CONN_STATE_DISCONNECTED)) ∧
    (∃ r st2 eff,
      network_tcp_init_conn initial_state ⟨3, 0, 0, 0, 0⟩ 0 false =
        .ok (r, st2, eff) ∧
      st2.g_conn_count = initial_state.g_conn_count + 1 ∧
      (r = -1 → (st2.g_conns ⟨initial_state.g_conn_count, by decide⟩).state =
        .NETWORK_CONN_STATE_UNITIALIZED) ∧
      (r ≠ -1 → r = (initial_state.g_conn_count : Int) ∧
        (st2.g_conns ⟨initial_state.g_conn_count, by decide⟩).state =
          .NETWORK_CONN_STATE_DISCONNECTED)) :=
  init_always_consumes_handle initial_state ⟨-1, 0, 0, 0⟩ ⟨3, 0, 0, 0, 0⟩ 0 false
    (by decide) (by decide)

/-- Claim C3: every operation of either transport taking a handle, when
invoked with an invalid handle (outside 0..31) or on a record whose
state fails the operation's precondition, ends fatally: an invalid
handle is a NULL-pointer dereference in the precondition assert
(undefined behaviour that crashes the process), a wrong state is an
assert failure (abort). No such call returns normally. -/
theorem contract_violations_fatal
    (st : network_state) (cid : Int) (addr port : Nat)
    (connect_ret sendto_ret send_ret : Int)
    (rosU : recvfrom_result) (rosT : recv_result) (len : Nat) :
    (get_network_conn cid = none →
      network_udp_connect st cid addr port = .ub ∧
      network_udp_send st cid sendto_ret len = .ub ∧
      network_udp_receive st cid rosU len = .ub ∧
      network_udp_disconnect st cid = .ub ∧
      network_udp_free st cid = .ub ∧
      network_tcp_connect st cid addr port connect_ret = .ub ∧
      network_tcp_send st cid send_ret len = .ub ∧
      network_tcp_receive st cid rosT len = .ub ∧
      network_tcp_disconnect st cid = .ub ∧
      network_tcp_free st cid = .ub) ∧
    (∀ i, get_network_conn cid = some i →
      ((st.g_conns i).state ≠ .NETWORK_CONN_STATE_DISCONNECTED →
        network_udp_connect st cid addr port = .abortAssert ∧
        network_udp_free st cid = .abortAssert ∧
        network_tcp_connect st cid addr port connect_ret = .abortAssert ∧
        network_tcp_free st cid = .abortAssert) ∧
      ((st.g_conns i).state ≠ .NETWORK_CONN_STATE_CONNECTED →
        network_udp_send st cid sendto_ret len = .abortAssert ∧
        network_udp_disconnect st cid = .abortAssert ∧
        network_tcp_send st cid send_ret len = .abortAssert ∧
        network_tcp_receive st cid rosT len = .abortAssert ∧
        network_tcp_disconnect st cid = .abortAssert) ∧
      (¬ (((st.g_conns i).server = true ∧
            (st.g_conns i).state ≠ .NETWORK_CONN_STATE_UNITIALIZED) ∨
          ((st.g_conns i).server = false ∧
            (st.g_conns i).state = .NETWORK_CONN_STATE_CONNECTED)) →
        network_udp_receive st cid rosU len = .abortAssert)) := by
  constructor
  · intro hn
    refine ⟨?_, ?_, ?_, ?_, ?_, ?_, ?_, ?_, ?_, ?_⟩ <;>
      simp only [network_udp_connect, network_udp_send, network_udp_receive,
        network_udp_disconnect, network_udp_free, network_tcp_connect,
        network_tcp_send, network_tcp_receive, network_tcp_disconnect,
        network_tcp_free, hn]
  · intro i hv
    refine ⟨?_, ?_, ?_⟩
    · intro hd
      refine ⟨?_, ?_, ?_, ?_⟩ <;>
        · simp only [network_udp_connect, network_udp_free,
            network_tcp_connect, network_tcp_free, hv]
          rw [if_neg hd]
    · intro hc
      refine ⟨?_, ?_, ?_, ?_, ?_⟩ <;>
        · simp only [network_udp_send, network_udp_disconnect,
            network_tcp_send, network_tcp_receive, network_tcp_disconnect, hv]
          rw [if_neg hc]
    · intro hpre
      simp only [network_udp_receive, hv]
      rw [if_neg hpre]

/-- Witness for C3: handle 40 is invalid (UDP connect dereferences
NULL), and on the startup state slot 0 is Uninitialized, so UDP send
(requires Connected) and TCP free (requires Disconnected) both abort. -/
theorem contract_violations_fatal_witness :
    network_udp_connect initial_state 40 1 2 = .ub ∧
    network_udp_send initial_state 0 (-1) 4 = .abortAssert ∧
    network_tcp_free initial_state 0 = .abortAssert :=
  ⟨((contract_violations_fatal initial_state 40 1 2 0 (-1) 0 (.fail 0) (.fail 0)
      4).1 (by decide)).1,
   (((contract_violations_fatal initial_state 0 1 2 0 (-1) 0 (.fail 0) (.fail 0)
      4).2 fin0 (by decide)).2.1 (by decide)).1,
   (((contract_violations_fatal initial_state 0 1 2 0 (-1) 0 (.fail 0) (.fail 0)
      4).2 fin0 (by decide)).1 (by decide)).2.2.2⟩

/-- Claim C9: records carry no transport tag and operation preconditions
inspect only the state (and, for UDP receive, the server flag): a handle
produced by the TCP family's init and connected by the TCP connect
passes `network_udp_send`'s precondition check and the call returns
normally — the UDP-family operation accepts the stream-created record. -/
theorem tcp_handle_accepted_by_udp_send
    (st st1 st2 : network_state) (os : tcp_init_os)
    (port addr p : Nat) (sv : Bool) (cid sret : Int) (len : Nat)
    (e1 e2 : side_effects)
    (h1 : network_tcp_init_conn st os port sv = .ok (cid, st1, e1))
    (hc : 0 ≤ cid)
    (h2 : network_tcp_connect st1 cid addr p 0 = .ok (0, st2, e2)) :
    network_udp_send st2 cid sret len =
      .ok (sret, st2,
        { perrors := if sret < 0 then ["sendto"] else [],
          hexdumps := 1, closed_fds := [] }) := by
  simp only [network_tcp_init_conn] at h1
  split at h1
  case isFalse hlt => exact absurd h1 (by simp)
  case isTrue hlt =>
  split at h1
  case isFalse hun => exact absurd h1 (by simp)
  case isTrue hun =>
  split at h1
  case isTrue hsock =>
    simp only [cresult.ok.injEq, Prod.mk.injEq] at h1
    obtain ⟨h1a, -⟩ := h1
    omega
  case isFalse hsock =>
  split at h1
  case isTrue hbind =>
    simp only [cresult.ok.injEq, Prod.mk.injEq] at h1
    obtain ⟨h1a, -⟩ := h1
    omega
  case isFalse hbind =>
  simp only [cresult.ok.injEq, Prod.mk.injEq] at h1
  obtain ⟨h1a, h1b, h1c⟩ := h1
  subst h1a
  subst h1b
  have hg : get_network_conn ((st.g_conn_count : Nat) : Int) =
      some ⟨st.g_conn_count, hlt⟩ := get_network_conn_nat _ hlt
  simp only [network_tcp_connect, hg] at h2
  rw [if_pos (by simp [set_conn])] at h2
  rw [if_neg (by simp)] at h2
  simp only [cresult.ok.injEq, Prod.mk.injEq, true_and] at h2
  obtain ⟨h2a, -⟩ := h2
  subst h2a
  simp only [network_udp_send, hg]
  rw [if_pos (by simp [set_conn])]

/-- Witness for C9: init a TCP record at the startup state (handle 0),
connect it to 123:456, then send through the UDP family's send. -/
theorem tcp_handle_accepted_by_udp_send_witness :
    network_udp_send
      (st_of (network_tcp_connect
        (st_of (network_tcp_init_conn initial_state ⟨3, 0, 0, 0, 0⟩ 0 false))
        0 123 456 0))
      0 7 4 =
    .ok (7,
      st_of (network_tcp_connect
        (st_of (network_tcp_init_conn initial_state ⟨3, 0, 0, 0, 0⟩ 0 false))
        0 123 456 0),
      { perrors := if (7 : Int) < 0 then ["sendto"] else [],
        hexdumps := 1, closed_fds := [] }) :=
  tcp_handle_accepted_by_udp_send initial_state
    (st_of (network_tcp_init_conn initial_state ⟨3, 0, 0, 0, 0⟩ 0 false))
    (st_of (network_tcp_connect
      (st_of (network_tcp_init_conn initial_state ⟨3, 0, 0, 0, 0⟩ 0 false))
      0 123 456 0))
    ⟨3, 0, 0, 0, 0⟩ 0 123 456 false 0 7 4
    { perrors := [], hexdumps := 0, closed_fds := [] } no_effects
    rfl (by decide) rfl

/-- State after a successful TCP init of handle 0 at startup. -/
def c4_st1 : network_state :=
  st_of (network_tcp_init_conn initial_state ⟨3, 0, 0, 0, 0⟩ 0 false)

/-- State after a failed TCP connect (OS connect returned -1) on that
handle. -/
def c4_st2 : network_state :=
  st_of (network_tcp_connect c4_st1 0 0xC0A80001 0x1F90 (-1))

/-- State after a successful UDP init of handle 0 at startup. -/
def c4_ust1 : network_state :=
  st_of (network_udp_init_conn initial_state ⟨3, 0, 0, 0⟩ 0 false)

/-- State after a UDP connect on that handle. -/
def c4_ust2 : network_state := st_of (network_udp_connect c4_ust1 0 9 9)

/-- State after the UDP disconnect that follows. -/
def c4_ust3 : network_state := st_of (network_udp_disconnect c4_ust2 0)

/-- Counterexample to claim C4: after a successful TCP init of handle 0
and a failed TCP connect, the record is in Disconnected state yet its
peer endpoint holds the attempted peer (populated, not the zero
startup value); likewise, after UDP init + connect + disconnect the
Disconnected record still holds the old peer endpoint. So the peer
endpoint is populated in a state other than Connected, and both a
rejected stream connect and a disconnect leave the peer fields behind. -/
theorem peer_endpoint_populated_while_disconnected :
    ret_of (network_tcp_init_conn initial_state ⟨3, 0, 0, 0, 0⟩ 0 false) =
      some 0 ∧
    ret_of (network_tcp_connect c4_st1 0 0xC0A80001 0x1F90 (-1)) = some (-1) ∧
    (c4_st2.g_conns fin0).state = .NETWORK_CONN_STATE_DISCONNECTED ∧
    (c4_st2.g_conns fin0).sin_oth =
      { sin_family := AF_INET, sin_addr := 0xC0A80001, sin_port := 0x1F90 } ∧
    (c4_st2.g_conns fin0).sin_oth ≠ zero_addr ∧
    ret_of (network_udp_init_conn initial_state ⟨3, 0, 0, 0⟩ 0 false) = some 0 ∧
    ret_of (network_udp_connect c4_ust1 0 9 9) = some 0 ∧
    ret_of (network_udp_disconnect c4_ust2 0) = some 0 ∧
    (c4_ust3.g_conns fin0).state = .NETWORK_CONN_STATE_DISCONNECTED ∧
    (c4_ust3.g_conns fin0).sin_oth =
      { sin_family := AF_INET, sin_addr := 9, sin_port := 9 } ∧
    (c4_ust3.g_conns fin0).sin_oth ≠ zero_addr := by
  decide

/-- Claim C4 as amended: the peer endpoint fields are not cleared when a
record is in (or returns to) Disconnected state — a failed stream
connect leaves the attempted peer written with the record still
Disconnected, and disconnect (either transport) transitions to
Disconnected while leaving the stored peer endpoint unchanged; the
peer endpoint is only consulted by operations requiring Connected. -/
theorem peer_endpoint_not_cleared
    (st : network_state) (cid : Int) (i : Fin MAX_NETWORK_CONNECTIONS)
    (addr p : Nat) (cret : Int)
    (hv : get_network_conn cid = some i) :
    ((st.g_conns i).state = .NETWORK_CONN_STATE_DISCONNECTED → cret ≠ 0 →
      ∃ st2, network_tcp_connect st cid addr p cret =
          .ok (-1, st2,
            { perrors := ["connect"], hexdumps := 0, closed_fds := [] }) ∧
        (st2.g_conns i).state = .NETWORK_CONN_STATE_DISCONNECTED ∧
        (st2.g_conns i).sin_oth =
          { sin_family := AF_INET, sin_addr := addr, sin_port := p }) ∧
    ((st.g_conns i).state = .NETWORK_CONN_STATE_CONNECTED →
      (network_udp_disconnect st cid =
          .ok (0, with_state st i .NETWORK_CONN_STATE_DISCONNECTED, no_effects) ∧
        ((with_state st i .NETWORK_CONN_STATE_DISCONNECTED).g_conns i).sin_oth =
          (st.g_conns i).sin_oth) ∧
      (network_tcp_disconnect st cid =
          .ok (0, with_state st i .NETWORK_CONN_STATE_DISCONNECTED,
            { perrors := [], hexdumps := 0,
              closed_fds := [(st.g_conns i).fd] }) ∧
        ((with_state st i .NETWORK_CONN_STATE_DISCONNECTED).g_conns i).sin_oth =
          (st.g_conns i).sin_oth)) := by
  constructor
  · intro hd hcret
    refine ⟨{ st with g_conns := set_conn st.g_conns i ({ st.g_conns i with
                  sin_oth := { sin_family := AF_INET, sin_addr := addr,
                               sin_port := p },
                  slen := sizeof_sockaddr_in }) }, ?_, ?_, ?_⟩
    · simp only [network_tcp_connect, hv]
      rw [if_pos hd, if_pos hcret]
    · simpa [set_conn] using hd
    · simp [set_conn]
  · intro hc
    refine ⟨⟨?_, ?_⟩, ⟨?_, ?_⟩⟩
    · simp [network_udp_disconnect, with_state, hv, hc]
    · simp [with_state, set_conn]
    · simp [network_tcp_disconnect, with_state, hv, hc]
    · simp [with_state, set_conn]

/-- Witness for the amended C4: the failed-connect part at the
Disconnected record of `demo_server_state` and the disconnect parts at
the Connected record of `demo_state`. -/
theorem peer_endpoint_not_cleared_witness :
    (∃ st2, network_tcp_connect demo_server_state 0 11 22 (-1) =
        .ok (-1, st2,
          { perrors := ["connect"], hexdumps := 0, closed_fds := [] }) ∧
      (st2.g_conns fin0).state = .NETWORK_CONN_STATE_DISCONNECTED ∧
      (st2.g_conns fin0).sin_oth =
        { sin_family := AF_INET, sin_addr := 11, sin_port := 22 }) ∧
    (network_udp_disconnect demo_state 0 =
        .ok (0, with_state demo_state fin0 .NETWORK_CONN_STATE_DISCONNECTED,
          no_effects) ∧
      ((with_state demo_state fin0 .NETWORK_CONN_STATE_DISCONNECTED).g_conns
          fin0).sin_oth = (demo_state.g_conns fin0).sin_oth) :=
  ⟨(peer_endpoint_not_cleared demo_server_state 0 fin0 11 22 (-1)
      (by decide)).1 (by decide) (by decide),
   ((peer_endpoint_not_cleared demo_state 0 fin0 11 22 (-1)
      (by decide)).2 (by decide)).1⟩
